import Mathlib

/-!
Verification of volume-management fragments of the kubernetes excerpt:
AWS EBS and GCE PD mount plugins, the Azure disk attacher, the CNI
network plugin, the shared unmount routine, the drain/cordon commands
and the service-controller cache.

Go functions are shallowly embedded: every syscall or SDK call made by a
function is answered by an explicit environment record, and the function
returns its Go result together with the list of operations it performed,
so that claims about call counts and error propagation become statements
about the returned trace.
-/

/-- Model of a Go `error` value.  `isNotExist` models `os.IsNotExist(err)`
and `isCorrupted` models `IsCorruptedMnt(err)` (underlying errno is
ENOTCONN, ESTALE or EIO). -/
structure GoError where
  msg : String := ""
  isNotExist : Bool := false
  isCorrupted : Bool := false
deriving DecidableEq, Repr

/-- Mount-related operations a volume plugin can perform, recorded in
execution order. -/
inductive VolOp where
  | isLikelyNotMountPoint (dir : String)
  | mkdirAll (dir : String)
  | mount (source target : String)
  | unmount (dir : String)
  | setVolumeOwnership
  | remove (dir : String)
  | statPath (p : String)
deriving DecidableEq, Repr

def VolOp.isMount : VolOp → Bool
  | .mount _ _ => true
  | _ => false

def VolOp.isUnmount : VolOp → Bool
  | .unmount _ => true
  | _ => false

def VolOp.isMutation : VolOp → Bool
  | .isLikelyNotMountPoint _ => false
  | .statPath _ => false
  | _ => true

/-- Results of the successive mounter/OS calls a `SetUpAt` execution can
make: the initial mount-point check, `os.MkdirAll`, `Mount`, and the
cleanup sequence (check, `Unmount`, check) run when the mount fails.
`IsLikelyNotMountPoint` returns a pair (value, error), as in Go. -/
structure SetUpAtEnv where
  check1 : Bool × Option GoError
  mkdir : Option GoError
  mountErr : Option GoError
  check2 : Bool × Option GoError
  unmountErr : Option GoError
  check3 : Bool × Option GoError
deriving DecidableEq, Repr

/-- The guard `err != nil && !os.IsNotExist(err)` on the initial
mount-point check of both `SetUpAt` implementations. -/
def checkErrFatal : Option GoError → Bool
  | none => false
  | some e => !e.isNotExist

/-- The cleanup block shared verbatim by the AWS EBS and GCE PD
`SetUpAt` implementations: it runs after `b.mounter.Mount` returned the
non-nil error `e`, re-checks the mount point, unmounts at most once,
removes the directory and always returns the original mount error `e`. -/
def setUpAtMountFailure (env : SetUpAtEnv) (dir : String) (e : GoError)
    (t : List VolOp) : Option GoError × List VolOp :=
  let t2 := t ++ [VolOp.isLikelyNotMountPoint dir]
  match env.check2.2 with
  | some _ => (some e, t2)
  | none =>
    if !env.check2.1 then
      let t3 := t2 ++ [VolOp.unmount dir]
      match env.unmountErr with
      | some _ => (some e, t3)
      | none =>
        let t4 := t3 ++ [VolOp.isLikelyNotMountPoint dir]
        match env.check3.2 with
        | some _ => (some e, t4)
        | none =>
          if !env.check3.1 then
            (some e, t4)
          else
            (some e, t4 ++ [VolOp.remove dir])
    else
      (some e, t2 ++ [VolOp.remove dir])

/-- The part of `awsElasticBlockStoreMounter.SetUpAt` reached once the
initial check neither failed fatally nor reported an existing mount:
`os.MkdirAll`, the bind `Mount`, and on success `SetVolumeOwnership`
unless the volume is read-only. -/
def awsSetUpAtBody (env : SetUpAtEnv) (dir globalPDPath : String)
    (readOnly : Bool) (t0 : List VolOp) : Option GoError × List VolOp :=
  match env.mkdir with
  | some e => (some e, t0 ++ [VolOp.mkdirAll dir])
  | none =>
    let t1 := t0 ++ [VolOp.mkdirAll dir, VolOp.mount globalPDPath dir]
    match env.mountErr with
    | some e => setUpAtMountFailure env dir e t1
    | none =>
      if !readOnly then (none, t1 ++ [VolOp.setVolumeOwnership])
      else (none, t1)

/-- `awsElasticBlockStoreMounter.SetUpAt` from pkg/volume/awsebs/aws_ebs.go.
`dir` is the target, `globalPDPath` the source of the bind mount; mount
options do not influence control flow and are not recorded. -/
def awsSetUpAt (env : SetUpAtEnv) (dir globalPDPath : String)
    (readOnly : Bool) : Option GoError × List VolOp :=
  let t0 := [VolOp.isLikelyNotMountPoint dir]
  if checkErrFatal env.check1.2 then
    (env.check1.2, t0)
  else if !env.check1.1 then
    (none, t0)
  else
    awsSetUpAtBody env dir globalPDPath readOnly t0

/-- The part of `gcePersistentDiskMounter.SetUpAt` reached once the
initial check neither failed fatally nor reported an existing mount.
The Go body is identical to the AWS one except for logging, the order
mount options are joined and where `globalPDPath` is computed, none of
which changes the performed operations or returned error. -/
def gceSetUpAtBody (env : SetUpAtEnv) (dir globalPDPath : String)
    (readOnly : Bool) (t0 : List VolOp) : Option GoError × List VolOp :=
  match env.mkdir with
  | some e => (some e, t0 ++ [VolOp.mkdirAll dir])
  | none =>
    let t1 := t0 ++ [VolOp.mkdirAll dir, VolOp.mount globalPDPath dir]
    match env.mountErr with
    | some e => setUpAtMountFailure env dir e t1
    | none =>
      if !readOnly then (none, t1 ++ [VolOp.setVolumeOwnership])
      else (none, t1)

/-- `gcePersistentDiskMounter.SetUpAt` from pkg/volume/gcepd/gce_pd.go. -/
def gceSetUpAt (env : SetUpAtEnv) (dir globalPDPath : String)
    (readOnly : Bool) : Option GoError × List VolOp :=
  let t0 := [VolOp.isLikelyNotMountPoint dir]
  if checkErrFatal env.check1.2 then
    (env.check1.2, t0)
  else if !env.check1.1 then
    (none, t0)
  else
    gceSetUpAtBody env dir globalPDPath readOnly t0

example :
    awsSetUpAt ⟨(true, none), none, none, (true, none), none, (true, none)⟩
      "d" "g" false =
    (none, [VolOp.isLikelyNotMountPoint "d", VolOp.mkdirAll "d",
            VolOp.mount "g" "d", VolOp.setVolumeOwnership]) := by
  decide

example :
    awsSetUpAt ⟨(false, none), none, none, (true, none), none, (true, none)⟩
      "d" "g" false =
    (none, [VolOp.isLikelyNotMountPoint "d"]) := by
  decide

theorem setUpAtMountFailure_trace (env : SetUpAtEnv) (dir : String) (e : GoError)
    (t : List VolOp) :
    (setUpAtMountFailure env dir e t).1 = some e ∧
    ((setUpAtMountFailure env dir e t).2.filter VolOp.isUnmount).length ≤
      (t.filter VolOp.isUnmount).length + 1 ∧
    (setUpAtMountFailure env dir e t).2.filter VolOp.isMount =
      t.filter VolOp.isMount := by
  unfold setUpAtMountFailure
  rcases h2 : env.check2.2 with _ | e2 <;>
  rcases h2b : env.check2.1 <;>
  rcases hu : env.unmountErr with _ | eu <;>
  rcases h3 : env.check3.2 with _ | e3 <;>
  rcases h3b : env.check3.1 <;>
  simp [List.filter_append, VolOp.isUnmount, VolOp.isMount]

/-- C1: when the bind mount in `SetUpAt` (AWS EBS and GCE PD) fails, the
cleanup performs at most one `Unmount` of the target directory, the call
returns the original (non-nil) mount error, and the mount is attempted
exactly once. -/
theorem setUpAt_mount_failure_single_cleanup :
    (∀ (env : SetUpAtEnv) (dir gpd : String) (ro : Bool) (e : GoError),
      checkErrFatal env.check1.2 = false → env.check1.1 = true →
      env.mkdir = none → env.mountErr = some e →
      (awsSetUpAt env dir gpd ro).1 = some e ∧
      ((awsSetUpAt env dir gpd ro).2.filter VolOp.isUnmount).length ≤ 1 ∧
      ((awsSetUpAt env dir gpd ro).2.filter VolOp.isMount).length = 1) ∧
    (∀ (env : SetUpAtEnv) (dir gpd : String) (ro : Bool) (e : GoError),
      checkErrFatal env.check1.2 = false → env.check1.1 = true →
      env.mkdir = none → env.mountErr = some e →
      (gceSetUpAt env dir gpd ro).1 = some e ∧
      ((gceSetUpAt env dir gpd ro).2.filter VolOp.isUnmount).length ≤ 1 ∧
      ((gceSetUpAt env dir gpd ro).2.filter VolOp.isMount).length = 1) := by
  constructor
  · intro env dir gpd ro e h1 h2 h3 h4
    have hmf := setUpAtMountFailure_trace env dir e
      [VolOp.isLikelyNotMountPoint dir, VolOp.mkdirAll dir, VolOp.mount gpd dir]
    simp only [awsSetUpAt, awsSetUpAtBody, h1, h2, h3, h4, Bool.not_true,
      Bool.false_eq_true, if_false, List.cons_append, List.nil_append] at *
    refine ⟨hmf.1, ?_, ?_⟩
    · refine le_trans hmf.2.1 ?_
      simp [VolOp.isUnmount, VolOp.isMount]
    · rw [hmf.2.2]
      simp [VolOp.isUnmount, VolOp.isMount]
  · intro env dir gpd ro e h1 h2 h3 h4
    have hmf := setUpAtMountFailure_trace env dir e
      [VolOp.isLikelyNotMountPoint dir, VolOp.mkdirAll dir, VolOp.mount gpd dir]
    simp only [gceSetUpAt, gceSetUpAtBody, h1, h2, h3, h4, Bool.not_true,
      Bool.false_eq_true, if_false, List.cons_append, List.nil_append] at *
    refine ⟨hmf.1, ?_, ?_⟩
    · refine le_trans hmf.2.1 ?_
      simp [VolOp.isUnmount, VolOp.isMount]
    · rw [hmf.2.2]
      simp [VolOp.isUnmount, VolOp.isMount]

theorem setUpAt_mount_failure_single_cleanup_witness :
    (awsSetUpAt ⟨(true, none), none, some ⟨"mount failed", false, false⟩,
        (false, none), none, (true, none)⟩ "d" "g" false).1 =
      some ⟨"mount failed", false, false⟩ ∧
    ((awsSetUpAt ⟨(true, none), none, some ⟨"mount failed", false, false⟩,
        (false, none), none, (true, none)⟩ "d" "g" false).2.filter
      VolOp.isUnmount).length ≤ 1 ∧
    ((awsSetUpAt ⟨(true, none), none, some ⟨"mount failed", false, false⟩,
        (false, none), none, (true, none)⟩ "d" "g" false).2.filter
      VolOp.isMount).length = 1 :=
  setUpAt_mount_failure_single_cleanup.1
    ⟨(true, none), none, some ⟨"mount failed", false, false⟩,
      (false, none), none, (true, none)⟩ "d" "g" false
    ⟨"mount failed", false, false⟩ rfl rfl rfl rfl

/-- C4: when the initial `IsLikelyNotMountPoint` check reports the target
directory already being a mount point (value false, nil error), `SetUpAt`
(AWS EBS and GCE PD) returns nil having performed only that read-only
check: no `MkdirAll`, no `Mount`, no `SetVolumeOwnership`, no other
filesystem mutation. -/
theorem setUpAt_idempotent_on_mounted :
    (∀ (env : SetUpAtEnv) (dir gpd : String) (ro : Bool),
      env.check1 = (false, none) →
      awsSetUpAt env dir gpd ro = (none, [VolOp.isLikelyNotMountPoint dir]) ∧
      (awsSetUpAt env dir gpd ro).2.filter VolOp.isMutation = []) ∧
    (∀ (env : SetUpAtEnv) (dir gpd : String) (ro : Bool),
      env.check1 = (false, none) →
      gceSetUpAt env dir gpd ro = (none, [VolOp.isLikelyNotMountPoint dir]) ∧
      (gceSetUpAt env dir gpd ro).2.filter VolOp.isMutation = []) := by
  constructor
  · intro env dir gpd ro h
    simp [awsSetUpAt, h, checkErrFatal, VolOp.isMutation]
  · intro env dir gpd ro h
    simp [gceSetUpAt, h, checkErrFatal, VolOp.isMutation]

theorem setUpAt_idempotent_on_mounted_witness :
    (awsSetUpAt ⟨(false, none), none, none, (true, none), none, (true, none)⟩
        "d" "g" false = (none, [VolOp.isLikelyNotMountPoint "d"]) ∧
      (awsSetUpAt ⟨(false, none), none, none, (true, none), none,
        (true, none)⟩ "d" "g" false).2.filter VolOp.isMutation = []) :=
  setUpAt_idempotent_on_mounted.1
    ⟨(false, none), none, none, (true, none), none, (true, none)⟩
    "d" "g" false rfl

/-- Modelled from the spec: constants of pkg/volume/util/attach_limit.go,
which is not part of this excerpt; only the key names and default values
are needed, and no claim depends on the particular numbers. -/
def EBSVolumeLimitKey : String := "attachable-volumes-aws-ebs"

def DefaultMaxEBSVolumes : Int := 39

def DefaultMaxEBSNitroVolumeLimit : Int := 25

def GCEVolumeLimitKey : String := "attachable-volumes-gce-pd"

def awsProviderName : String := "aws"

def gceProviderName : String := "gce"

def OneCPU : Int := 1

def EightCPUs : Int := 8

def VolumeLimit16 : Int := 16

def VolumeLimit32 : Int := 32

def VolumeLimit64 : Int := 64

def VolumeLimit128 : Int := 128

/-- The `cloudprovider.Instances` interface as used by `GetVolumeLimits`:
only `InstanceType` is called (on the host's node name, fixed for the
call), so the model carries just that call's result. -/
structure Instances where
  instanceType : Except GoError String
deriving Repr

/-- The cloud-provider handle returned by `host.GetCloudProvider()`:
`instances = none` models `Instances()` returning `(_, false)`. -/
structure CloudProvider where
  providerName : String
  instances : Option Instances
deriving Repr

/-- Go's `strings.HasPrefix` (also the receiver-style `startsWith` used
on instance-type strings), computed on the character lists so that the
kernel can evaluate it. -/
def goHasPrefix (s pre : String) : Bool :=
  pre.toList.isPrefixOf s.toList

/-- Go's `strings.Split(s, "-")`: the list of substrings of `s` between
occurrences of the separator, as character lists. -/
def goSplitDash : List Char → List (List Char)
  | [] => [[]]
  | c :: rest =>
    let r := goSplitDash rest
    if c = '-' then [] :: r
    else
      match r with
      | [] => [[c]]
      | h :: t => (c :: h) :: t

/-- Go's `strconv.Atoi`: an optional sign followed by at least one
decimal digit; anything else is an error (modelled as `none`). -/
def goAtoi (s : List Char) : Option Int :=
  let (sign, digits) :=
    match s with
    | '-' :: rest => ((-1 : Int), rest)
    | '+' :: rest => ((1 : Int), rest)
    | _ => ((1 : Int), s)
  if digits = [] then none
  else if digits.all Char.isDigit then
    some (sign * (digits.foldl (fun n c => n * 10 + ((c.toNat : Int) - 48)) 0))
  else none

/-- `awsElasticBlockStorePlugin.GetVolumeLimits` from
pkg/volume/awsebs/aws_ebs.go.  The volume-limit map always holds the
single key `EBSVolumeLimitKey`, so it is modelled as a one-entry
association list.  `nitroMatch` stands for
`regexp.MatchString(util.EBSNitroLimitRegex, instanceType)`, an external
regexp-library call. -/
def awsGetVolumeLimits (cloud : Option CloudProvider)
    (nitroMatch : String → Bool) : Except GoError (List (String × Int)) :=
  let volumeLimits := [(EBSVolumeLimitKey, DefaultMaxEBSVolumes)]
  match cloud with
  | none => .error ⟨"no cloudprovider present", false, false⟩
  | some c =>
    if c.providerName ≠ awsProviderName then
      .error ⟨"expected aws cloud, found " ++ c.providerName, false, false⟩
    else
      match c.instances with
      | none => .ok volumeLimits
      | some insts =>
        match insts.instanceType with
        | .error _ => .ok volumeLimits
        | .ok instanceType =>
          if nitroMatch instanceType then
            .ok [(EBSVolumeLimitKey, DefaultMaxEBSNitroVolumeLimit)]
          else
            .ok volumeLimits

/-- `gcePersistentDiskPlugin.GetVolumeLimits` from
pkg/volume/gcepd/gce_pd.go, including the n1 instance-type parsing. -/
def gceGetVolumeLimits (cloud : Option CloudProvider) :
    Except GoError (List (String × Int)) :=
  let volumeLimits := [(GCEVolumeLimitKey, VolumeLimit16)]
  match cloud with
  | none => .error ⟨"no cloudprovider present", false, false⟩
  | some c =>
    if c.providerName ≠ gceProviderName then
      .error ⟨"expected gce cloud got " ++ c.providerName, false, false⟩
    else
      match c.instances with
      | none => .ok volumeLimits
      | some insts =>
        match insts.instanceType with
        | .error _ => .ok volumeLimits
        | .ok instanceType =>
          if goHasPrefix instanceType "n1-" then
            let splits := goSplitDash instanceType.toList
            if splits.length < 3 then .ok volumeLimits
            else
              let last := splits.getD 2 []
              match goAtoi last with
              | none => .ok volumeLimits
              | some num =>
                if num = OneCPU then .ok [(GCEVolumeLimitKey, VolumeLimit32)]
                else if num < EightCPUs then .ok [(GCEVolumeLimitKey, VolumeLimit64)]
                else .ok [(GCEVolumeLimitKey, VolumeLimit128)]
          else .ok volumeLimits

instance : DecidableEq (Except GoError (List (String × Int))) :=
  fun a b =>
    match a, b with
    | .ok x, .ok y => decidable_of_iff (x = y) (by simp)
    | .error x, .error y => decidable_of_iff (x = y) (by simp)
    | .ok _, .error _ => isFalse (by simp)
    | .error _, .ok _ => isFalse (by simp)

example :
    gceGetVolumeLimits (some ⟨"gce", some ⟨.ok "n1-standard-96"⟩⟩) =
    .ok [(GCEVolumeLimitKey, VolumeLimit128)] := by decide

example :
    gceGetVolumeLimits (some ⟨"gce", some ⟨.ok "n1-standard-1"⟩⟩) =
    .ok [(GCEVolumeLimitKey, VolumeLimit32)] := by decide

example :
    awsGetVolumeLimits (some ⟨"aws", some ⟨.ok "c5.large"⟩⟩ )
      (fun s => goHasPrefix s "c5") =
    .ok [(EBSVolumeLimitKey, DefaultMaxEBSNitroVolumeLimit)] := by decide

/-- C2: when fetching the node's instance data fails (`Instances()` not
ok, or `InstanceType` errors), `GetVolumeLimits` of the AWS EBS and GCE
PD plugins returns the default volume-limit map together with a nil
error instead of propagating the failure. -/
theorem getVolumeLimits_default_on_lookup_failure :
    (∀ (c : CloudProvider) (nitroMatch : String → Bool),
      c.providerName = awsProviderName →
      (c.instances = none ∨
        ∃ i e, c.instances = some i ∧ i.instanceType = .error e) →
      awsGetVolumeLimits (some c) nitroMatch =
        .ok [(EBSVolumeLimitKey, DefaultMaxEBSVolumes)]) ∧
    (∀ c : CloudProvider,
      c.providerName = gceProviderName →
      (c.instances = none ∨
        ∃ i e, c.instances = some i ∧ i.instanceType = .error e) →
      gceGetVolumeLimits (some c) =
        .ok [(GCEVolumeLimitKey, VolumeLimit16)]) := by
  constructor
  · intro c nitroMatch hname hfail
    rcases hfail with h | ⟨i, e, hi, he⟩
    · simp [awsGetVolumeLimits, hname, h]
    · simp [awsGetVolumeLimits, hname, hi, he]
  · intro c hname hfail
    rcases hfail with h | ⟨i, e, hi, he⟩
    · simp [gceGetVolumeLimits, hname, h]
    · simp [gceGetVolumeLimits, hname, hi, he]

theorem getVolumeLimits_default_on_lookup_failure_witness :
    awsGetVolumeLimits (some ⟨"aws", none⟩) (fun _ => false) =
      .ok [(EBSVolumeLimitKey, DefaultMaxEBSVolumes)] ∧
    gceGetVolumeLimits
        (some ⟨"gce", some ⟨.error ⟨"instance lookup failed", false, false⟩⟩⟩) =
      .ok [(GCEVolumeLimitKey, VolumeLimit16)] :=
  ⟨getVolumeLimits_default_on_lookup_failure.1 ⟨"aws", none⟩ (fun _ => false)
      rfl (Or.inl rfl),
    getVolumeLimits_default_on_lookup_failure.2
      ⟨"gce", some ⟨.error ⟨"instance lookup failed", false, false⟩⟩⟩
      rfl (Or.inr ⟨⟨.error ⟨"instance lookup failed", false, false⟩⟩,
        ⟨"instance lookup failed", false, false⟩, rfl, rfl⟩)⟩

/-- One entry of a CNI NetworkConfigList: only the capability map of the
plugin's network configuration matters to `checkInitialized`.  A Go
`map[string]bool` lookup yields false for absent keys. -/
structure CNIPluginConf where
  capabilities : List (String × Bool)
deriving Repr

def lookupCapability (caps : List (String × Bool)) (key : String) : Bool :=
  match caps.find? (fun p => p.1 == key) with
  | some p => p.2
  | none => false

/-- `cniNetwork` from pkg/kubelet/dockershim/network/cni/cni.go: the
parsed NetworkConfigList (the CNIConfig handle is behaviour, carried by
the SetUpPod environment instead). -/
structure CniNetwork where
  plugins : List CNIPluginConf
deriving Repr

/-- The fields of `cniNetworkPlugin` read by `checkInitialized` and
`SetUpPod`.  An empty `podCidr` models the unset PodCIDR. -/
structure CniNetworkPlugin where
  defaultNetwork : Option CniNetwork
  podCidr : String
  loNetwork : Option CniNetwork
deriving Repr

/-- The loop of `checkInitialized` over the configured plugins: at the
first plugin declaring the ipRanges capability it errors when no PodCIDR
is set, and otherwise breaks. -/
def checkIpRanges (podCidr : String) : List CNIPluginConf → Option GoError
  | [] => none
  | p :: rest =>
    if lookupCapability p.capabilities "ipRanges" then
      if podCidr = "" then some ⟨"no PodCIDR set", false, false⟩ else none
    else checkIpRanges podCidr rest

/-- `cniNetworkPlugin.checkInitialized`. -/
def checkInitialized (plugin : CniNetworkPlugin) : Option GoError :=
  match plugin.defaultNetwork with
  | none => some ⟨"cni config uninitialized", false, false⟩
  | some net => checkIpRanges plugin.podCidr net.plugins

/-- Operations `SetUpPod` performs after its initialization check, in
order: the network-namespace lookup and the CNI ADD calls on the
loopback and default networks. -/
inductive CniOp where
  | getNetNS (id : String)
  | addLoNetwork
  | addDefaultNetwork
deriving DecidableEq, Repr

/-- Results of the host and CNI calls a `SetUpPod` execution can make. -/
structure SetUpPodEnv where
  getNetNS : Except GoError String
  addLo : Except GoError Unit
  addDefault : Except GoError Unit

/-- `cniNetworkPlugin.SetUpPod`: fails on `checkInitialized` before any
other call; then resolves the network namespace, and ADDs the pod to the
loopback network (when present) and the default network. -/
def setUpPod (plugin : CniNetworkPlugin) (env : SetUpPodEnv) (id : String) :
    Option GoError × List CniOp :=
  match checkInitialized plugin with
  | some e => (some e, [])
  | none =>
    match env.getNetNS with
    | .error e =>
      (some ⟨"CNI failed to retrieve network namespace path: " ++ e.msg,
        false, false⟩, [CniOp.getNetNS id])
    | .ok _ =>
      match plugin.loNetwork with
      | some _ =>
        match env.addLo with
        | .error e => (some e, [CniOp.getNetNS id, CniOp.addLoNetwork])
        | .ok _ =>
          match env.addDefault with
          | .error e =>
            (some e, [CniOp.getNetNS id, CniOp.addLoNetwork,
              CniOp.addDefaultNetwork])
          | .ok _ =>
            (none, [CniOp.getNetNS id, CniOp.addLoNetwork,
              CniOp.addDefaultNetwork])
      | none =>
        match env.addDefault with
        | .error e => (some e, [CniOp.getNetNS id, CniOp.addDefaultNetwork])
        | .ok _ => (none, [CniOp.getNetNS id, CniOp.addDefaultNetwork])

theorem checkIpRanges_fails_of_mem (confs : List CNIPluginConf)
    (p : CNIPluginConf) (hp : p ∈ confs)
    (hcap : lookupCapability p.capabilities "ipRanges" = true) :
    ∃ e, checkIpRanges "" confs = some e := by
  induction confs with
  | nil => cases hp
  | cons q rest ih =>
    rcases List.mem_cons.mp hp with h | h
    · subst h
      exact ⟨⟨"no PodCIDR set", false, false⟩, by simp [checkIpRanges, hcap]⟩
    · by_cases hq : lookupCapability q.capabilities "ipRanges" = true
      · exact ⟨⟨"no PodCIDR set", false, false⟩, by simp [checkIpRanges, hq]⟩
      · rcases ih h with ⟨e, he⟩
        refine ⟨e, ?_⟩
        simpa [checkIpRanges, hq] using he

/-- C3: while the CNI plugin is uninitialized (no default network, or an
ipRanges-capable configuration with no PodCIDR set), `SetUpPod` returns
a non-nil error without performing the network-namespace lookup or any
CNI ADD operation. -/
theorem setUpPod_blocked_when_uninitialized (plugin : CniNetworkPlugin)
    (env : SetUpPodEnv) (id : String)
    (hinit : plugin.defaultNetwork = none ∨
      (plugin.podCidr = "" ∧ ∃ net p, plugin.defaultNetwork = some net ∧
        p ∈ net.plugins ∧ lookupCapability p.capabilities "ipRanges" = true)) :
    ∃ e, setUpPod plugin env id = (some e, []) := by
  rcases hinit with h | ⟨hcidr, net, p, hnet, hp, hcap⟩
  · exact ⟨⟨"cni config uninitialized", false, false⟩,
      by simp [setUpPod, checkInitialized, h]⟩
  · rcases checkIpRanges_fails_of_mem net.plugins p hp hcap with ⟨e, he⟩
    refine ⟨e, ?_⟩
    simp [setUpPod, checkInitialized, hnet, hcidr ▸ he]

theorem setUpPod_blocked_when_uninitialized_witness :
    ∃ e, setUpPod ⟨none, "", none⟩
      ⟨.ok "/proc/1/ns/net", .ok (), .ok ()⟩ "sandbox0" = (some e, []) :=
  setUpPod_blocked_when_uninitialized ⟨none, "", none⟩
    ⟨.ok "/proc/1/ns/net", .ok (), .ok ()⟩ "sandbox0" (Or.inl rfl)

/-- Results of the successive OS/mounter calls an `UnmountMountPoint`
execution can make: `os.Stat` (behind `PathExists`), the mount-point
check, `os.Remove` for the not-a-mount-point branch, `Unmount`, the
post-unmount check, and the final `os.Remove`. -/
structure UnmountEnv where
  stat : Option GoError
  notMnt1 : Bool × Option GoError
  remove1 : Option GoError
  unmountErr : Option GoError
  notMnt2 : Bool × Option GoError
  remove2 : Option GoError
deriving DecidableEq, Repr

/-- `PathExists` from the volume util code in
pkg/volume/flexvolume/detacher.go: stat success means the path exists;
`os.IsNotExist` means it does not (nil error); a corrupted-mount errno
counts as existing with the error passed through; any other stat error
is (false, err). -/
def pathExistsOf (stat : Option GoError) : Bool × Option GoError :=
  match stat with
  | none => (true, none)
  | some e =>
    if e.isNotExist then (false, none)
    else if e.isCorrupted then (true, some e)
    else (false, some e)

/-- The unmount phase of `doUnmountMountPoint`: `Unmount`, the follow-up
mount-point check, `os.Remove` when the path is no longer mounted, and
the failed-to-unmount error when it still is. -/
def unmountPhase (env : UnmountEnv) (p : String) (t : List VolOp) :
    Option GoError × List VolOp :=
  let t1 := t ++ [VolOp.unmount p]
  match env.unmountErr with
  | some e => (some e, t1)
  | none =>
    let t2 := t1 ++ [VolOp.isLikelyNotMountPoint p]
    match env.notMnt2.2 with
    | some e => (some e, t2)
    | none =>
      if env.notMnt2.1 then (env.remove2, t2 ++ [VolOp.remove p])
      else (some ⟨"failed to unmount path " ++ p, false, false⟩, t2)

/-- `doUnmountMountPoint`: unless the mount point is corrupted, check it
first and delete the directory when it is not a mount point (returning
the removal's result); otherwise unmount.  The extensiveMountPointCheck
flag only selects which checker answers `notMnt1` and is not modelled
separately. -/
def doUnmountMountPoint (env : UnmountEnv) (p : String) (corrupted : Bool)
    (t : List VolOp) : Option GoError × List VolOp :=
  if !corrupted then
    let t1 := t ++ [VolOp.isLikelyNotMountPoint p]
    match env.notMnt1.2 with
    | some e => (some e, t1)
    | none =>
      if env.notMnt1.1 then (env.remove1, t1 ++ [VolOp.remove p])
      else unmountPhase env p t1
  else unmountPhase env p t

/-- `UnmountMountPoint` from pkg/volume/flexvolume/detacher.go (the
shared unmount routine behind TearDownAt/UnmountDevice). -/
def unmountMountPoint (env : UnmountEnv) (p : String) :
    Option GoError × List VolOp :=
  let pe := pathExistsOf env.stat
  let t0 := [VolOp.statPath p]
  if !pe.1 then (none, t0)
  else
    match pe.2 with
    | some e =>
      if !e.isCorrupted then
        (some ⟨"error checking path: " ++ e.msg, false, false⟩, t0)
      else doUnmountMountPoint env p e.isCorrupted t0
    | none => doUnmountMountPoint env p false t0

/-- C10 counterexample: the unmount succeeds and the follow-up check
reports the path no longer mounted, yet `UnmountMountPoint` returns a
non-nil error, namely the error of the final `os.Remove` — refuting
"returning an error only if the path is still a mount point afterwards". -/
theorem unmountMountPoint_remove_error_counterexample :
    unmountMountPoint ⟨none, (false, none), none, none, (true, none),
      some ⟨"remove failed", false, false⟩⟩ "p" =
    (some ⟨"remove failed", false, false⟩,
     [VolOp.statPath "p", VolOp.isLikelyNotMountPoint "p", VolOp.unmount "p",
      VolOp.isLikelyNotMountPoint "p", VolOp.remove "p"]) := by decide

/-- C10 (amended): `UnmountMountPoint` returns nil when the path does
not exist; when the path exists and the check reports it not a mount
point, it deletes the directory and returns that removal's result; and
after a successful unmount, when the follow-up check reports the path no
longer mounted it deletes the directory returning that removal's result,
it propagates the follow-up check's error when that check fails, and it
returns a failed-to-unmount error when the path is still a mount
point. -/
theorem unmountMountPoint_cases (env : UnmountEnv) (p : String) :
    (∀ e, env.stat = some e → e.isNotExist = true →
      unmountMountPoint env p = (none, [VolOp.statPath p])) ∧
    (env.stat = none → env.notMnt1 = (true, none) →
      unmountMountPoint env p =
        (env.remove1, [VolOp.statPath p, VolOp.isLikelyNotMountPoint p,
          VolOp.remove p])) ∧
    (env.stat = none → env.notMnt1 = (false, none) → env.unmountErr = none →
      (env.notMnt2 = (true, none) →
        unmountMountPoint env p =
          (env.remove2, [VolOp.statPath p, VolOp.isLikelyNotMountPoint p,
            VolOp.unmount p, VolOp.isLikelyNotMountPoint p, VolOp.remove p])) ∧
      (∀ e2, env.notMnt2.2 = some e2 →
        unmountMountPoint env p =
          (some e2, [VolOp.statPath p, VolOp.isLikelyNotMountPoint p,
            VolOp.unmount p, VolOp.isLikelyNotMountPoint p])) ∧
      (env.notMnt2 = (false, none) →
        unmountMountPoint env p =
          (some ⟨"failed to unmount path " ++ p, false, false⟩,
           [VolOp.statPath p, VolOp.isLikelyNotMountPoint p, VolOp.unmount p,
            VolOp.isLikelyNotMountPoint p]))) := by
  refine ⟨?_, ?_, ?_⟩
  · intro e hstat hne
    simp [unmountMountPoint, pathExistsOf, hstat, hne]
  · intro hstat hn1
    simp [unmountMountPoint, pathExistsOf, doUnmountMountPoint, hstat, hn1]
  · intro hstat hn1 hu
    refine ⟨?_, ?_, ?_⟩
    · intro hn2
      simp [unmountMountPoint, pathExistsOf, doUnmountMountPoint,
        unmountPhase, hstat, hn1, hu, hn2]
    · intro e2 hn2
      simp [unmountMountPoint, pathExistsOf, doUnmountMountPoint,
        unmountPhase, hstat, hn1, hu, hn2]
    · intro hn2
      simp [unmountMountPoint, pathExistsOf, doUnmountMountPoint,
        unmountPhase, hstat, hn1, hu, hn2]

theorem unmountMountPoint_cases_witness :
    unmountMountPoint ⟨some ⟨"no such file", true, false⟩, (true, none), none,
      none, (true, none), none⟩ "q" = (none, [VolOp.statPath "q"]) :=
  (unmountMountPoint_cases ⟨some ⟨"no such file", true, false⟩, (true, none),
    none, none, (true, none), none⟩ "q").1
    ⟨"no such file", true, false⟩ rfl rfl

/-- A node taint, one of the Spec fields cordon must not touch. -/
structure Taint where
  key : String
  value : String
  effect : String
deriving DecidableEq, Repr

/-- The node Spec fields of the v1.Node API object. -/
structure NodeSpec where
  podCIDR : String
  providerID : String
  unschedulable : Bool
  taints : List Taint
deriving DecidableEq, Repr

structure Node where
  name : String
  spec : NodeSpec
deriving DecidableEq, Repr

/-- Modelled from the spec: the cordon/uncordon helper of
pkg/kubectl/cmd/drain (only its test is in this excerpt) patches the
node's Spec.Unschedulable field to the desired value, and submits no
patch when the node already has the desired value (TestCordon cases
"cordon does nothing"/"uncordon does nothing"). -/
def runCordonOrUncordon (desired : Bool) (n : Node) : Node :=
  if n.spec.unschedulable = desired then n
  else { n with spec := { n.spec with unschedulable := desired } }

/-- C5: cordon leaves the node with Spec.Unschedulable true and uncordon
with false, neither touches any other Spec field or the node identity,
and both are no-ops on a node already in the desired state. -/
theorem cordon_uncordon_patch_unschedulable_only (n : Node) :
    ((runCordonOrUncordon true n).spec.unschedulable = true ∧
      (runCordonOrUncordon false n).spec.unschedulable = false) ∧
    (∀ desired : Bool,
      (runCordonOrUncordon desired n).name = n.name ∧
      (runCordonOrUncordon desired n).spec.podCIDR = n.spec.podCIDR ∧
      (runCordonOrUncordon desired n).spec.providerID = n.spec.providerID ∧
      (runCordonOrUncordon desired n).spec.taints = n.spec.taints) ∧
    (n.spec.unschedulable = true → runCordonOrUncordon true n = n) ∧
    (n.spec.unschedulable = false → runCordonOrUncordon false n = n) := by
  refine ⟨⟨?_, ?_⟩, ?_, ?_, ?_⟩
  · by_cases h : n.spec.unschedulable = true <;>
      simp [runCordonOrUncordon, h]
  · by_cases h : n.spec.unschedulable = false <;>
      simp [runCordonOrUncordon, h]
  · intro desired
    by_cases h : n.spec.unschedulable = desired <;>
      simp [runCordonOrUncordon, h]
  · intro h
    simp [runCordonOrUncordon, h]
  · intro h
    simp [runCordonOrUncordon, h]

theorem cordon_uncordon_patch_unschedulable_only_witness :
    (runCordonOrUncordon true ⟨"node", "10.0.0.0/24", "gce-node", false,
        []⟩).spec.unschedulable = true ∧
    runCordonOrUncordon false ⟨"node", "10.0.0.0/24", "gce-node", false, []⟩ =
      ⟨"node", "10.0.0.0/24", "gce-node", false, []⟩ :=
  ⟨(cordon_uncordon_patch_unschedulable_only
      ⟨"node", "10.0.0.0/24", "gce-node", false, []⟩).1.1,
    (cordon_uncordon_patch_unschedulable_only
      ⟨"node", "10.0.0.0/24", "gce-node", false, []⟩).2.2.2 rfl⟩

/-- Controller kinds a pod's controller owner reference can name in the
drain tests. -/
inductive OwnerKind where
  | rc
  | ds
  | job
  | rs
deriving DecidableEq, Repr

/-- The attributes of a pod that the drain filters inspect: its
controller owner reference (none = naked pod), whether the referenced
controller still exists, whether the pod has terminated (phase Succeeded
or Failed), and whether it uses local (emptyDir) storage. -/
structure PodModel where
  ownerKind : Option OwnerKind
  ownerExists : Bool
  terminated : Bool
  hasLocalStorage : Bool
deriving DecidableEq, Repr

/-- The drain command flags the filters read. -/
structure DrainOptions where
  force : Bool
  ignoreDaemonsets : Bool
  deleteLocalData : Bool
deriving DecidableEq, Repr

/-- What drain decides for one pod: delete (or evict) it, skip it with a
warning, or abort the drain. -/
inductive PodDecision where
  | delete
  | skip
  | fatal
deriving DecidableEq, Repr

/-- Modelled from the spec: the pod filters of pkg/kubectl/cmd/drain
(only drain_test.go is in this excerpt).  Following the spec sentence
"drain deletes/evicts pods owned by a ReplicationController but refuses
for naked/DaemonSet pods unless forced" and the behaviour asserted by
TestDrain: the DaemonSet filter runs first (terminated pods exempt) and
aborts unless ignoreDaemonsets is set, in which case the pod is skipped
with a warning and no further filter runs; next the local-storage filter
aborts for non-terminated pods with emptyDir volumes unless
deleteLocalData is set; finally the unreplicated filter deletes
terminated pods and pods with a live controller, and aborts for naked
pods unless force is set, in which case they are deleted with a
warning. -/
def podDrainDecision (o : DrainOptions) (p : PodModel) : PodDecision :=
  if p.ownerKind = some OwnerKind.ds ∧ ¬p.terminated ∧ p.ownerExists then
    if ¬o.ignoreDaemonsets then PodDecision.fatal else PodDecision.skip
  else if p.ownerKind = some OwnerKind.ds ∧ ¬p.terminated ∧ ¬p.ownerExists ∧
      ¬o.force then
    PodDecision.fatal
  else if p.hasLocalStorage ∧ ¬p.terminated ∧ ¬o.deleteLocalData then
    PodDecision.fatal
  else if p.terminated then PodDecision.delete
  else if p.ownerKind.isSome ∧ p.ownerExists then PodDecision.delete
  else if o.force then PodDecision.delete
  else PodDecision.fatal

/-- A drain invocation aborts when any pod on the node filters to
fatal. -/
def drainBlocked (o : DrainOptions) (pods : List PodModel) : Bool :=
  pods.any (fun p => podDrainDecision o p == PodDecision.fatal)

/-- The pods a successful drain deletes or evicts. -/
def drainedPods (o : DrainOptions) (pods : List PodModel) : List PodModel :=
  pods.filter (fun p => podDrainDecision o p == PodDecision.delete)

example : podDrainDecision ⟨false, false, false⟩ ⟨some .rc, true, false, false⟩
    = .delete := by decide

example : podDrainDecision ⟨false, true, false⟩ ⟨some .ds, true, false, true⟩
    = .skip := by decide

example : podDrainDecision ⟨true, false, true⟩ ⟨some .job, true, false, true⟩
    = .delete := by decide

example : podDrainDecision ⟨false, false, false⟩ ⟨none, false, true, true⟩
    = .delete := by decide

/-- C6 counterexample: a (non-terminated) DaemonSet-managed pod on a
default drain invocation (no flags) filters to fatal and blocks the
drain, refuting the claim that DaemonSet-managed pods are skipped with a
warning and do not block. -/
theorem ds_pod_blocks_default_drain_counterexample :
    podDrainDecision ⟨false, false, false⟩ ⟨some OwnerKind.ds, true, false,
      false⟩ = PodDecision.fatal ∧
    drainBlocked ⟨false, false, false⟩ [⟨some OwnerKind.ds, true, false,
      false⟩] = true := by decide

/-- C6 (amended): for every drain invocation, a pod owned by a live
ReplicationController (without local storage) is deleted and never
blocks the drain; a DaemonSet-managed pod blocks the drain unless
ignoreDaemonsets is given, in which case it is skipped with a warning
and not deleted; a naked pod blocks the drain unless force is given, in
which case it is deleted and the drain succeeds. -/
theorem drain_pod_filters (o : DrainOptions) :
    (∀ p : PodModel, p.ownerKind = some OwnerKind.rc → p.ownerExists = true →
      p.hasLocalStorage = false →
      podDrainDecision o p = PodDecision.delete) ∧
    (o.ignoreDaemonsets = false →
      podDrainDecision o ⟨some OwnerKind.ds, true, false, false⟩ =
        PodDecision.fatal) ∧
    (o.ignoreDaemonsets = true →
      podDrainDecision o ⟨some OwnerKind.ds, true, false, false⟩ =
        PodDecision.skip) ∧
    (o.force = false →
      podDrainDecision o ⟨none, false, false, false⟩ = PodDecision.fatal ∧
      drainBlocked o [⟨none, false, false, false⟩] = true) ∧
    (o.force = true →
      podDrainDecision o ⟨none, false, false, false⟩ = PodDecision.delete ∧
      drainBlocked o [⟨none, false, false, false⟩] = false ∧
      drainedPods o [⟨none, false, false, false⟩] =
        [⟨none, false, false, false⟩]) := by
  refine ⟨?_, ?_, ?_, ?_, ?_⟩
  · intro p hk he hs
    rcases p with ⟨k, ex, term, stor⟩
    simp only at hk he hs
    subst hk; subst he; subst hs
    rcases term <;> rcases o with ⟨f, i, d⟩ <;>
      rcases f <;> rcases i <;> rcases d <;> decide
  · intro h
    rcases o with ⟨f, i, d⟩
    simp only at h
    subst h
    rcases f <;> rcases d <;> decide
  · intro h
    rcases o with ⟨f, i, d⟩
    simp only at h
    subst h
    rcases f <;> rcases d <;> decide
  · intro h
    rcases o with ⟨f, i, d⟩
    simp only at h
    subst h
    rcases i <;> rcases d <;> decide
  · intro h
    rcases o with ⟨f, i, d⟩
    simp only at h
    subst h
    rcases i <;> rcases d <;> decide

theorem drain_pod_filters_witness :
    podDrainDecision ⟨false, false, false⟩ ⟨some OwnerKind.rc, true, false,
      false⟩ = PodDecision.delete ∧
    podDrainDecision ⟨false, false, false⟩ ⟨none, false, false, false⟩ =
      PodDecision.fatal ∧
    drainBlocked ⟨false, false, false⟩ [⟨none, false, false, false⟩] = true :=
  ⟨(drain_pod_filters ⟨false, false, false⟩).1
      ⟨some OwnerKind.rc, true, false, false⟩ rfl rfl rfl,
    (drain_pod_filters ⟨false, false, false⟩).2.2.2.1 rfl⟩

/-- `cachedService` of the service controller: the cached service state
(nil until filled in by the caller). -/
structure CachedService where
  state : Option String
deriving DecidableEq, Repr

/-- Modelled from the spec: the service controller's `serviceCache`
(its implementation is not in this excerpt; TestServiceCache exercises
getOrCreate/get/set/delete/ListKeys/allServices).  The mutex-guarded Go
map `serviceMap` is modelled as an association list whose update
operations keep at most one entry per key. -/
structure ServiceCacheM where
  serviceMap : List (String × CachedService)
deriving DecidableEq, Repr

/-- `serviceCache.get`: map lookup, returning the entry and the ok
flag. -/
def scGet (sc : ServiceCacheM) (k : String) : Option CachedService × Bool :=
  match sc.serviceMap.find? (fun p => p.1 == k) with
  | some p => (some p.2, true)
  | none => (none, false)

/-- `serviceCache.set`: map store, replacing any entry under the same
key. -/
def scSet (sc : ServiceCacheM) (k : String) (v : CachedService) :
    ServiceCacheM :=
  ⟨(k, v) :: sc.serviceMap.filter (fun p => !(p.1 == k))⟩

/-- `serviceCache.delete`: map delete. -/
def scDelete (sc : ServiceCacheM) (k : String) : ServiceCacheM :=
  ⟨sc.serviceMap.filter (fun p => !(p.1 == k))⟩

/-- `serviceCache.getOrCreate`: return the existing entry, or store and
return a zero-value entry. -/
def scGetOrCreate (sc : ServiceCacheM) (k : String) :
    CachedService × ServiceCacheM :=
  match sc.serviceMap.find? (fun p => p.1 == k) with
  | some p => (p.2, sc)
  | none => (⟨none⟩, scSet sc k ⟨none⟩)

/-- `serviceCache.ListKeys`: one key per stored entry. -/
def scListKeys (sc : ServiceCacheM) : List String :=
  sc.serviceMap.map Prod.fst

/-- `serviceCache.allServices`: one cached state per stored entry. -/
def scAllServices (sc : ServiceCacheM) : List (Option String) :=
  sc.serviceMap.map (fun p => p.2.state)

theorem scGet_scSet (sc : ServiceCacheM) (k : String) (v : CachedService) :
    scGet (scSet sc k v) k = (some v, true) := by
  simp [scGet, scSet]

theorem scGet_scDelete (sc : ServiceCacheM) (k : String) :
    scGet (scDelete sc k) k = (none, false) := by
  have : (scDelete sc k).serviceMap.find? (fun p => p.1 == k) = none := by
    rw [List.find?_eq_none]
    intro p hp
    rcases List.mem_filter.mp hp with ⟨_, h⟩
    simpa using h
  simp [scGet, this]

theorem scGet_scGetOrCreate (sc : ServiceCacheM) (k : String) :
    scGet (scGetOrCreate sc k).2 k = (some (scGetOrCreate sc k).1, true) := by
  rcases h : sc.serviceMap.find? (fun p => p.1 == k) with _ | p
  · simp [scGetOrCreate, h, scGet_scSet]
  · have hk : p.1 = k := by
      have := List.find?_some h
      simpa using this
    simp [scGetOrCreate, h, scGet, hk]

/-- C7: the service-cache operations are mutually consistent: after
getOrCreate or set the entry is present and get returns it with ok true,
after delete it is absent, and ListKeys and allServices each return
exactly one element per stored entry. -/
theorem serviceCache_consistent (sc : ServiceCacheM) (k : String)
    (v : CachedService) :
    scGet (scGetOrCreate sc k).2 k = (some (scGetOrCreate sc k).1, true) ∧
    scGet (scSet sc k v) k = (some v, true) ∧
    scGet (scDelete sc k) k = (none, false) ∧
    (scListKeys sc).length = sc.serviceMap.length ∧
    (scAllServices sc).length = sc.serviceMap.length ∧
    scListKeys sc = sc.serviceMap.map Prod.fst := by
  exact ⟨scGet_scGetOrCreate sc k, scGet_scSet sc k v, scGet_scDelete sc k,
    by simp [scListKeys], by simp [scAllServices], rfl⟩

def errWaitTimeout : GoError :=
  ⟨"timed out waiting for the condition", false, false⟩

/-- Modelled from the spec: `wait.Poll` of k8s.io/apimachinery (an
external dependency treated as given): it waits one interval, then runs
the condition once per interval until the condition returns true
(success), returns a non-nil error (which aborts the wait and is
returned), or the timeout elapses (ErrWaitTimeout).  `ticks` is the
timeout divided by the interval — for WaitForAttach the interval is the
fixed one second — and the condition receives the tick number and
threads the state σ holding the closure's captured variables. -/
def waitPoll {σ : Type} (cond : Nat → σ → (Bool × Option GoError) × σ) :
    Nat → Nat → σ → Option GoError × σ
  | _, 0, s => (some errWaitTimeout, s)
  | i, Nat.succ n, s =>
    let r := cond i s
    match r.1.2 with
    | some e => (some e, r.2)
    | none => if r.1.1 then (none, r.2) else waitPoll cond (i + 1) n r.2

/-- The condition closure inside `azureDiskAttacher.WaitForAttach`
(pkg/volume/azure_dd/attacher.go): each tick calls `findDiskByLun`; on a
lookup error it returns (false, ticker-failed error); when the device
path is found it returns (true, nil); when the device has not appeared
it returns (false, the failed-within-timeout error).  The threaded
string is the captured `newDevicePath`. -/
def waitForAttachCond (find : Nat → Except GoError String) (i : Nat)
    (_s : String) : (Bool × Option GoError) × String :=
  match find i with
  | .error _ =>
    ((false, some ⟨"azureDisk - WaitForAttach ticker failed", false, false⟩),
      "")
  | .ok path =>
    if path = "" then
      ((false,
        some ⟨"azureDisk - WaitForAttach failed within timeout", false,
          false⟩), path)
    else ((true, none), path)

/-- The polling portion of `azureDiskAttacher.WaitForAttach`: the result
is the pair (err, newDevicePath) the Go function returns. -/
def azureWaitForAttach (find : Nat → Except GoError String) (ticks : Nat) :
    Option GoError × String :=
  waitPoll (waitForAttachCond find) 0 ticks ""

/-- Modelled from the spec: the WaitForAttach polling loop as the spec
and the claim describe it — when the device has not yet appeared the
condition reports (false, nil) so that wait.Poll keeps checking once per
second until the device appears or the timeout elapses. -/
def specWaitForAttachCond (find : Nat → Except GoError String) (i : Nat)
    (_s : String) : (Bool × Option GoError) × String :=
  match find i with
  | .error _ =>
    ((false, some ⟨"azureDisk - WaitForAttach ticker failed", false, false⟩),
      "")
  | .ok path =>
    if path = "" then ((false, none), path)
    else ((true, none), path)

/-- The intended polling loop, for comparison with the code's. -/
def specWaitForAttach (find : Nat → Except GoError String) (ticks : Nat) :
    Option GoError × String :=
  waitPoll (specWaitForAttachCond find) 0 ticks ""

/-- C8: the code's WaitForAttach does not keep polling: with a device
that is absent on the first one-second tick and present on the second,
well within a ten-tick timeout, the condition's non-nil error aborts
wait.Poll on the first tick and WaitForAttach returns the
failed-within-timeout error, while the polling loop the claim (and the
error message itself) describes returns the device path found on the
second tick. -/
theorem waitForAttach_aborts_on_first_poll :
    azureWaitForAttach
        (fun i => if i = 0 then .ok "" else .ok "/dev/sdc") 10 =
      (some ⟨"azureDisk - WaitForAttach failed within timeout", false, false⟩,
        "") ∧
    specWaitForAttach
        (fun i => if i = 0 then .ok "" else .ok "/dev/sdc") 10 =
      (none, "/dev/sdc") := by
  constructor
  · rfl
  · rfl

/-- Phases of one `azureDiskAttacher.Attach` (or `azureDiskDetacher.Detach`)
call relative to the package-level `getLunMutex`: before
`getLunMutex.LockKey(instanceid)`, inside the critical section (the
`GetNextDiskLun`/`AttachDisk` sequence, or `DetachDiskByName`), and after
the deferred `UnlockKey`. -/
inductive LockPhase where
  | beforeLock
  | critical
  | unlocked
deriving DecidableEq, Repr

/-- Modelled from the spec: `keymutex.NewHashed` of pkg/util/keymutex
(not in this excerpt) maps each key to one of a fixed pool of mutexes by
hash, so `LockKey k` acquires the mutex of bucket `hashK k`.  The global
state records each thread's phase and, per bucket, the thread holding
that bucket's mutex.  Threads are identified by `Nat`; `inst t` is the
Azure instance ID the call on thread `t` attaches to or detaches from. -/
structure KeyMutexState where
  pc : Nat → LockPhase
  owner : Nat → Option Nat

/-- Initially no call has started and no mutex is held. -/
def keyMutexInit : KeyMutexState :=
  ⟨fun _ => LockPhase.beforeLock, fun _ => none⟩

/-- Interleaving semantics of concurrent Attach/Detach calls:
`lockKey t` blocks until the bucket of thread t's instance ID is free
and acquires it; `unlockKey t` (the deferred UnlockKey) releases it. -/
inductive KeyMutexStep (inst : Nat → String) (hashK : String → Nat) :
    KeyMutexState → KeyMutexState → Prop where
  | lockKey (t : Nat) (s : KeyMutexState) :
      s.pc t = LockPhase.beforeLock →
      s.owner (hashK (inst t)) = none →
      KeyMutexStep inst hashK s
        ⟨Function.update s.pc t LockPhase.critical,
          Function.update s.owner (hashK (inst t)) (some t)⟩
  | unlockKey (t : Nat) (s : KeyMutexState) :
      s.pc t = LockPhase.critical →
      KeyMutexStep inst hashK s
        ⟨Function.update s.pc t LockPhase.unlocked,
          Function.update s.owner (hashK (inst t)) none⟩

/-- Every thread inside the critical section holds its bucket's mutex. -/
def lockInv (inst : Nat → String) (hashK : String → Nat)
    (s : KeyMutexState) : Prop :=
  ∀ t, s.pc t = LockPhase.critical → s.owner (hashK (inst t)) = some t

theorem lockInv_step (inst : Nat → String) (hashK : String → Nat)
    (s s' : KeyMutexState) (hs : lockInv inst hashK s)
    (hstep : KeyMutexStep inst hashK s s') : lockInv inst hashK s' := by
  cases hstep with
  | lockKey t s hpc hown =>
    intro u hu
    by_cases hut : u = t
    · subst hut
      simp [Function.update_same]
    · have hpcu : s.pc u = LockPhase.critical := by
        simpa [Function.update_noteq hut] using hu
      have hownu := hs u hpcu
      by_cases hb : hashK (inst u) = hashK (inst t)
      · rw [hb, hown] at hownu
        cases hownu
      · simpa [Function.update_noteq hb] using hownu
  | unlockKey t s hpc =>
    intro u hu
    by_cases hut : u = t
    · subst hut
      simp [Function.update_same] at hu
    · have hpcu : s.pc u = LockPhase.critical := by
        simpa [Function.update_noteq hut] using hu
      have hownu := hs u hpcu
      by_cases hb : hashK (inst u) = hashK (inst t)
      · have ht := hs t hpc
        rw [hb, ht] at hownu
        exact absurd (Option.some.inj hownu).symm hut
      · simpa [Function.update_noteq hb] using hownu

theorem lockInv_reachable (inst : Nat → String) (hashK : String → Nat)
    (s : KeyMutexState)
    (h : Relation.ReflTransGen (KeyMutexStep inst hashK) keyMutexInit s) :
    lockInv inst hashK s := by
  induction h with
  | refl =>
    intro t ht
    simp [keyMutexInit] at ht
  | tail hab hbc ih => exact lockInv_step inst hashK _ _ ih hbc

/-- C9: LUN allocation is serialized per Azure VM instance: in every
state reachable by interleaving Attach/Detach calls, two threads inside
the `getLunMutex` critical section for the same instance ID are the same
thread, so two concurrent attaches to one instance cannot both be inside
the `GetNextDiskLun`/`AttachDisk` section. -/
theorem azure_attach_lun_serialized (inst : Nat → String)
    (hashK : String → Nat) (s : KeyMutexState)
    (hreach : Relation.ReflTransGen (KeyMutexStep inst hashK) keyMutexInit s)
    (t1 t2 : Nat) (h1 : s.pc t1 = LockPhase.critical)
    (h2 : s.pc t2 = LockPhase.critical) (hinst : inst t1 = inst t2) :
    t1 = t2 := by
  have hi := lockInv_reachable inst hashK s hreach
  have o1 := hi t1 h1
  have o2 := hi t2 h2
  rw [hinst, o2] at o1
  exact (Option.some.inj o1).symm

theorem azure_attach_lun_serialized_witness : (0 : Nat) = 0 :=
  azure_attach_lun_serialized (fun _ => "azure-vm-0") (fun _ => 0)
    ⟨Function.update keyMutexInit.pc 0 LockPhase.critical,
      Function.update keyMutexInit.owner 0 (some 0)⟩
    (Relation.ReflTransGen.single
      (KeyMutexStep.lockKey 0 keyMutexInit rfl rfl))
    0 0 (by simp [Function.update_same]) (by simp [Function.update_same]) rfl
